import Mathlib

/-!
Shallow embedding of the PartSelect chat-agent backend (router, entity
extraction, specialist handlers) and proofs about it.

Conventions used throughout the embedding:
* Python strings are Lean `String`s; an identifier slot that Python holds as
  `None` or `""` (both falsy, and only ever tested for truthiness or fused
  with `or`) is represented as the empty string `""`.
* The external completion service (`DeepseekClient.chat_with_system`) is an
  oracle `llm : String → String → Option String` taking the system prompt and
  the user message; `none` models a raised `ServiceUnavailable` exception.
  A Python function that calls the client outside a `try` block is embedded
  as an `Option`-returning function, `none` meaning the exception propagates.
* The vector similarity store is an oracle
  `vsearch : String → Nat → String → List String` taking the query text, the
  requested number of results and the category filter ("" = no filter), and
  returning the matched part numbers in rank order.
* The catalog store (SQLite via SQLAlchemy) is a `List PartRecord`;
  `findPart` embeds `db.query(Part).filter(Part.part_number == pn).first()`.
* Regex use in the source is limited to two patterns, embedded exactly:
  `PS\d+` (case-insensitive search, match uppercased) and
  `\b[A-Z]{2,4}[A-Z0-9]{5,}\b` (case-insensitive search, match uppercased).
  For the second pattern a match can only start at the beginning of a maximal
  word-character run and, by greediness of both quantifiers together with the
  trailing word boundary, the match is exactly that whole run; the run
  qualifies iff it contains no underscore, starts with at least two ASCII
  letters and has length at least 7 (2 letters + 5 further alphanumerics).
-/

namespace PartSelectSpec

/-- ASCII lowering of a whole string, embedding Python `str.lower()`. -/
def lowerStr (s : String) : String := String.mk (s.data.map Char.toLower)

/-- ASCII uppering of a whole string, embedding Python `str.upper()`. -/
def upperStr (s : String) : String := String.mk (s.data.map Char.toUpper)

/-- Python `str.strip()`: drop whitespace from both ends. -/
def pyStrip (s : String) : String :=
  String.mk (((s.data.dropWhile Char.isWhitespace).reverse.dropWhile Char.isWhitespace).reverse)

/-- Substring test on character lists, embedding Python `needle in hay`. -/
def hasSubstring (hay needle : List Char) : Bool :=
  match hay with
  | [] => needle.isEmpty
  | _ :: t => needle.isPrefixOf hay || hasSubstring t needle

/-- Python `kw in s.lower()` ranged over a keyword list via `any`. -/
def containsKeyword (s : String) (kws : List String) : Bool :=
  kws.any (fun kw => hasSubstring (lowerStr s).data kw.data)

/-- Split a character list at every occurrence of a separator character,
keeping empty pieces (the behaviour of Python `s.split(sep)`). -/
def splitOnCharAux (sep : Char) (cur : List Char) : List Char → List (List Char)
  | [] => [cur.reverse]
  | x :: xs =>
    if x == sep then cur.reverse :: splitOnCharAux sep [] xs
    else splitOnCharAux sep (x :: cur) xs

/-- Python `s.split("\n")`. -/
def splitLines (s : String) : List String :=
  (splitOnCharAux '\x0a' [] s.data).map String.mk

/-- Worker for `pyWords`. -/
def pyWordsAux (cur : List Char) : List Char → List (List Char)
  | [] => if cur.isEmpty then [] else [cur.reverse]
  | x :: xs =>
    if x.isWhitespace then
      if cur.isEmpty then pyWordsAux [] xs else cur.reverse :: pyWordsAux [] xs
    else pyWordsAux (x :: cur) xs

/-- Python `s.split()`: split on whitespace runs, dropping empty pieces. -/
def pyWords (s : String) : List String := (pyWordsAux [] s.data).map String.mk

/-- Worker for `pyReplace`; the fuel is an upper bound on the scanning
steps (the input length suffices for a non-empty pattern). -/
def pyReplaceAux (pat repl : List Char) : Nat → List Char → List Char
  | 0, l => l
  | _ + 1, [] => []
  | fuel + 1, x :: xs =>
    if pat.isPrefixOf (x :: xs) then
      repl ++ pyReplaceAux pat repl fuel ((x :: xs).drop pat.length)
    else x :: pyReplaceAux pat repl fuel xs

/-- Python `s.replace(pattern, repl)` for a non-empty pattern (every call
site passes a non-empty part number). -/
def pyReplace (s pattern repl : String) : String :=
  if pattern = "" then s
  else String.mk (pyReplaceAux pattern.data repl.data s.data.length s.data)

/-- Python falsy-or on strings: `a or b` where `""` plays the role of `None`. -/
def pyOr (a b : String) : String := if a = "" then b else a

/-- Attempt to match `PS\d+` (ignore-case) anchored at the start of the list;
returns the uppercased match `group(0).upper()`. -/
def psAt (l : List Char) : Option (List Char) :=
  match l with
  | c₁ :: c₂ :: rest =>
    if (c₁ == 'P' || c₁ == 'p') && (c₂ == 'S' || c₂ == 's')
        && !(rest.takeWhile Char.isDigit).isEmpty then
      some ('P' :: 'S' :: rest.takeWhile Char.isDigit)
    else none
  | _ => none

/-- Embed `re.search(r"PS\d+", text, re.IGNORECASE)` followed by
`.group(0).upper()`: the leftmost match, uppercased. -/
def findPS : List Char → Option (List Char)
  | [] => none
  | c :: cs =>
    match psAt (c :: cs) with
    | some r => some r
    | none => findPS cs

/-- `findPS` on a `String`, producing a `String`. -/
def findPSStr (s : String) : Option String := (findPS s.data).map String.mk

/-- Worker for `findAllPS`; the fuel is an upper bound on the number of
scanning steps (each step consumes at least one character). -/
def findAllPSAux : Nat → List Char → List (List Char)
  | 0, _ => []
  | _ + 1, [] => []
  | _ + 1, [_] => []
  | fuel + 1, c₁ :: c₂ :: rest =>
    if (c₁ == 'P' || c₁ == 'p') && (c₂ == 'S' || c₂ == 's')
        && !(rest.takeWhile Char.isDigit).isEmpty then
      ('P' :: 'S' :: rest.takeWhile Char.isDigit) ::
        findAllPSAux fuel (rest.dropWhile Char.isDigit)
    else findAllPSAux fuel (c₂ :: rest)

/-- Embed `re.findall(r"PS\d+", text, re.IGNORECASE)`: all non-overlapping
matches left to right (each uppercased as the callers do). -/
def findAllPS (l : List Char) : List (List Char) := findAllPSAux l.length l

/-- A word character in the sense of regex `\w`: alphanumeric or underscore. -/
def isWordChar (c : Char) : Bool := c.isAlphanum || c == '_'

/-- Maximal runs of word characters in order of appearance (the only
positions where a `\b`-delimited match can start and end). -/
def wordRunsAux (cur : List Char) : List Char → List (List Char)
  | [] => if cur.isEmpty then [] else [cur.reverse]
  | c :: cs =>
    if isWordChar c then wordRunsAux (c :: cur) cs
    else if cur.isEmpty then wordRunsAux [] cs
    else cur.reverse :: wordRunsAux [] cs

/-- Maximal word-character runs of a character list. -/
def wordRuns (l : List Char) : List (List Char) := wordRunsAux [] l

/-- Whether a maximal word run is a match of
`\b[A-Z]{2,4}[A-Z0-9]{5,}\b` (ignore-case): no underscore, at least two
leading ASCII letters, and total length at least 7. -/
def modelRunOk (r : List Char) : Bool :=
  !(r.contains '_') && decide (2 ≤ (r.takeWhile Char.isAlpha).length)
    && decide (7 ≤ r.length)

/-- Embed `re.findall(r"\b[A-Z]{2,4}[A-Z0-9]{5,}\b", text, re.IGNORECASE)`:
every qualifying word run, uppercased. -/
def findAllModel (l : List Char) : List String :=
  ((wordRuns l).filter modelRunOk).map (fun r => String.mk (r.map Char.toUpper))

/-- Embed `re.search` for the model pattern: the leftmost match, uppercased. -/
def findModelStr (s : String) : Option String := (findAllModel s.data).head?

/-- A conversation turn (`{"role": ..., "content": ...}`); extraction only
ever reads `content`. -/
structure Turn where
  role : String
  content : String
deriving Repr, DecidableEq

/-- Python `history[-n:]` for `n > 0`: the trailing window of a history. -/
def historyWindow (n : Nat) (h : List Turn) : List Turn := h.drop (h.length - n)

/-- A catalog part record, mirroring `Part.to_dict()` (the fields the agents
read). `price` is kept as its rendered string form since the agents only ever
interpolate it into text. -/
structure PartRecord where
  part_number : String
  name : String
  category : String
  subcategory : String
  price : String
  description : String
  installation_difficulty : String
  installation_steps : List String
  common_symptoms : List String
  compatible_models : List String
deriving Repr, DecidableEq, Inhabited

/-- Embed `db.query(Part).filter(Part.part_number == pn).first()`. -/
def findPart (catalog : List PartRecord) (pn : String) : Option PartRecord :=
  catalog.find? (fun p => p.part_number == pn)

/-- Does a whole string syntactically match the part-identifier pattern
`PS\d+` (after uppercasing), i.e. literally `PS` followed by digits only? -/
def isPartIdentifier (s : String) : Bool :=
  match s.data with
  | 'P' :: 'S' :: rest => !rest.isEmpty && rest.all Char.isDigit
  | _ => false

namespace CompatibilityAgent

/-- The pair of identifier slots produced by extraction; `""` plays the role
of Python `None` (both are falsy and only used through truthiness tests). -/
structure Extracted where
  part_number : String
  model_number : String
deriving Repr, DecidableEq

/-- One step of `extract_from_history`: fill each still-unset field from the
current turn; a model-pattern match that starts with `PS` is discarded. -/
def extractFromHistoryAux : Extracted → List Turn → Extracted
  | acc, [] => acc
  | acc, t :: ts =>
    let p := if acc.part_number ≠ "" then acc.part_number
             else (findPSStr t.content).getD ""
    let m := if acc.model_number ≠ "" then acc.model_number
             else match findModelStr t.content with
               | some s => if ("PS".data).isPrefixOf s.data then "" else s
               | none => ""
    extractFromHistoryAux ⟨p, m⟩ ts

/-- `CompatibilityAgent.extract_from_history`: scan the last 4 turns in
chronological order, first match per field wins. -/
def extract_from_history (conversation_history : List Turn) : Extracted :=
  extractFromHistoryAux ⟨"", ""⟩ (historyWindow 4 conversation_history)

/-- The fixed system prompt of `extract_part_and_model` (opaque data handed
to the completion-service oracle). -/
def extractionSystemPrompt : String :=
  "Extract the part number and model number from the user\x27s query.\n\n"
    ++ "Part numbers typically look like: PS11752778, PS11739232, etc.\n"
    ++ "Model numbers typically look like: WDT780SAEM1, WRF555SDFZ, KDFE104HPS, etc.\n\n"
    ++ "Respond in this EXACT format:\n"
    ++ "PART_NUMBER: <part_number or NONE>\n"
    ++ "MODEL_NUMBER: <model_number or NONE>\n\n"
    ++ "Examples:\n"
    ++ "User: \"Is part PS11752778 compatible with WDT780SAEM1?\"\n"
    ++ "Response:\nPART_NUMBER: PS11752778\nMODEL_NUMBER: WDT780SAEM1\n\n"
    ++ "User: \"Will this work with my dishwasher model KDFE104HPS?\"\n"
    ++ "Response:\nPART_NUMBER: NONE\nMODEL_NUMBER: KDFE104HPS"

/-- Parse one line of the constrained completion-service reply; a fallback
value never overwrites an already-set field. `"PART_NUMBER"` has 11
characters, so Python `line.split(":", 1)[1]` is `line[12:]`; likewise 13
for `"MODEL_NUMBER:"`. -/
def parseLlmLine (acc : Extracted) (line : String) : Extracted :=
  if ("PART_NUMBER:".data).isPrefixOf line.data then
    let v := pyStrip (String.mk (line.data.drop 12))
    if v ≠ "NONE" ∧ acc.part_number = "" then { acc with part_number := v } else acc
  else if ("MODEL_NUMBER:".data).isPrefixOf line.data then
    let v := pyStrip (String.mk (line.data.drop 13))
    if v ≠ "NONE" ∧ acc.model_number = "" then { acc with model_number := v } else acc
  else acc

/-- `CompatibilityAgent.extract_part_and_model`: regex first; if either field
is still unset, fall back to the completion service (whose failure
propagates, hence the `Option`). Note the single-message model regex here
has no `PS`-prefix exclusion, unlike `extract_from_history`. -/
def extract_part_and_model (llm : String → String → Option String)
    (user_query : String) : Option Extracted :=
  let part := (findPSStr user_query).getD ""
  let model := (findModelStr user_query).getD ""
  if part ≠ "" ∧ model ≠ "" then some ⟨part, model⟩
  else
    match llm extractionSystemPrompt user_query with
    | none => none
    | some response =>
      some ((splitLines (pyStrip response)).foldl parseLlmLine ⟨part, model⟩)

/-- The dictionary returned by `check_compatibility`; optional keys are
modelled as `Option`/defaulted fields. -/
structure CompatResult where
  compatible : Option Bool
  confidence : String
  explanation : String
  error : Option String := none
  part : Option PartRecord := none
  compatible_models : List String := []
deriving Repr, DecidableEq

/-- `CompatibilityAgent.check_compatibility`: look the part up by exact part
number; compatibility is case-insensitive membership of the model number in
the part of the compatible-model list; an incompatible result carries the
first 5 compatible models. -/
def check_compatibility (catalog : List PartRecord) (part_number model_number : String) :
    CompatResult :=
  match findPart catalog part_number with
  | none =>
    { compatible := none, confidence := "high",
      explanation := "Part number " ++ part_number ++ " not found in our database.",
      error := some "PART_NOT_FOUND" }
  | some part =>
    let compatible_model_numbers := part.compatible_models
    let is_compatible :=
      (compatible_model_numbers.map upperStr).contains (upperStr model_number)
    if is_compatible then
      { compatible := some true, confidence := "high",
        explanation := "Yes! The " ++ part.name ++ " (part #" ++ part_number
          ++ ") is compatible with model " ++ model_number ++ ".",
        part := some part }
    else
      { compatible := some false, confidence := "medium",
        explanation := "The " ++ part.name ++ " (part #" ++ part_number
          ++ ") is not listed as compatible with model " ++ model_number ++ ".",
        part := some part,
        compatible_models := compatible_model_numbers.take 5 }

/-- `CompatibilityAgent.generate_response`: deterministic string rendering
of a compatibility result (the `user_query` parameter is unused, exactly as
in the source). -/
def generate_response (compatibility_result : CompatResult) (user_query : String) :
    String :=
  if compatibility_result.error = some "PART_NOT_FOUND" then
    compatibility_result.explanation
  else
    let price := (compatibility_result.part.map (·.price)).getD "N/A"
    if compatibility_result.compatible = some true then
      "✅ **Great news!** " ++ compatibility_result.explanation ++ "\n\n"
        ++ "💰 **Price:** $" ++ price ++ "\n"
        ++ "🔧 **Installation:** "
        ++ (compatibility_result.part.map (·.installation_difficulty)).getD "Unknown"
        ++ " difficulty\n\n"
        ++ "Would you like installation instructions for this part?"
    else
      "❌ " ++ compatibility_result.explanation ++ "\n\n"
        ++ (if compatibility_result.compatible_models ≠ [] then
              "**This part is compatible with models like:**\n"
                ++ String.join ((compatibility_result.compatible_models.take 3).map
                    (fun m => "- " ++ m ++ "\n"))
                ++ "\n"
            else "")
        ++ "**What to do next:**\n"
        ++ "1. Double-check your model number (usually on a sticker inside the door or on the back)\n"
        ++ "2. Try searching: \x27Show me parts for [your model]\x27\n"
        ++ "3. Contact support for help finding the right part\n\n"
        ++ "💰 Part price: $" ++ price

/-- The dictionary returned by `handle_query`; keys that a given branch does
not set are defaulted (`""`/`none`). -/
structure HandlerResult where
  response : String
  agent : String
  compatible : Option Bool
  part_number : String := ""
  model_number : String := ""
  error : Option String := none
  part : Option PartRecord := none
deriving Repr, DecidableEq

/-- The `MISSING_BOTH` result of `handle_query`. -/
def missingBothResult : HandlerResult :=
  { response := "I need both a **part number** (like PS11752778) and a **model number** (like WDT780SAEM1) to check compatibility.\n\n"
      ++ "**Example:** \x27Is part PS11752778 compatible with model WDT780SAEM1?\x27\n\n"
      ++ "Your model number is usually found on a sticker:\n"
      ++ "- Inside the refrigerator/dishwasher door\n"
      ++ "- On the back of the appliance\n"
      ++ "- On the side wall inside the unit",
    agent := "compatibility", compatible := none, error := some "MISSING_BOTH" }

/-- The `MISSING_PART_NUMBER` result of `handle_query` (only the first
interpolation is an f-string in the source; the later braces are literal). -/
def missingPartResult (model_number : String) : HandlerResult :=
  { response := "I found your model number **" ++ model_number
      ++ "**, but I need a **part number** too.\n\n"
      ++ "**Example:** \x27Is PS11752778 compatible with {model_number}?\x27\n\n"
      ++ "Or you can search for compatible parts: \x27Show me parts for {model_number}\x27",
    agent := "compatibility", compatible := none, model_number := model_number,
    error := some "MISSING_PART_NUMBER" }

/-- The `MISSING_MODEL_NUMBER` result of `handle_query`. -/
def missingModelResult (part_number : String) : HandlerResult :=
  { response := "I found part number **" ++ part_number
      ++ "**, but I need your **model number** too.\n\n"
      ++ "**Example:** \x27Is {part_number} compatible with WDT780SAEM1?\x27\n\n"
      ++ "Your model number is on a sticker:\n"
      ++ "- Inside the door\n"
      ++ "- On the back panel\n"
      ++ "- Inside the unit",
    agent := "compatibility", compatible := none, part_number := part_number,
    error := some "MISSING_MODEL_NUMBER" }

/-- The `PART_NOT_FOUND` result of `handle_query`. -/
def partNotFoundResult (part_number model_number : String) : HandlerResult :=
  { response := "I couldn\x27t find part number **" ++ part_number
      ++ "** in our catalog.\n\n"
      ++ "**Please check:**\n"
      ++ "1. Part number is correct (format: PS12345678)\n"
      ++ "2. Try searching: \x27Show me ice makers\x27 or \x27Show me dishwasher parts\x27\n\n"
      ++ "If you\x27re sure it\x27s correct, this part may not be in our current catalog.",
    agent := "compatibility", compatible := none, part_number := part_number,
    model_number := model_number, error := some "PART_NOT_FOUND" }

/-- The entity-resolution chain at the head of `handle_query`: explicit
arguments, then current-message extraction (only if one is missing; may
propagate a service failure), then history extraction (only if still
missing and the history is non-empty). -/
def resolveEntities (llm : String → String → Option String)
    (user_query part_number model_number : String) (history : List Turn) :
    Option (String × String) :=
  let step1 : Option (String × String) :=
    if part_number = "" ∨ model_number = "" then
      (extract_part_and_model llm user_query).map
        (fun e => (pyOr part_number e.part_number, pyOr model_number e.model_number))
    else some (part_number, model_number)
  step1.map (fun pm =>
    if (pm.1 = "" ∨ pm.2 = "") ∧ history ≠ [] then
      let c := extract_from_history history
      (pyOr pm.1 c.part_number, pyOr pm.2 c.model_number)
    else pm)

/-- `CompatibilityAgent.handle_query`: resolve entities, report the distinct
missing-entity errors, otherwise consult the catalog; the narrative around
the structured verdict is produced by the pure `generate_response`. -/
def handle_query (llm : String → String → Option String) (catalog : List PartRecord)
    (user_query part_number model_number : String) (conversation_history : List Turn) :
    Option HandlerResult :=
  (resolveEntities llm user_query part_number model_number conversation_history).map
    (fun pm =>
      let pn := pm.1
      let mn := pm.2
      if pn = "" ∧ mn = "" then missingBothResult
      else if pn = "" then missingPartResult mn
      else if mn = "" then missingModelResult pn
      else
        let result := check_compatibility catalog pn mn
        if result.error = some "PART_NOT_FOUND" then partNotFoundResult pn mn
        else
          { response := generate_response result user_query, agent := "compatibility",
            compatible := result.compatible, part_number := pn, model_number := mn,
            part := result.part })

end CompatibilityAgent

namespace RouterAgent

/-- The duration/time-estimate pre-rule keyword list of `RouterAgent.route`. -/
def durationKeywords : List String :=
  ["how long", "how much time", "time estimate", "duration", "take to install"]

/-- The explicit installation pre-rule keyword list of `RouterAgent.route`. -/
def installKeywords : List String := ["install", "installation", "replace", "how do i"]

/-- The closed set of valid routing categories. -/
def validCategories : List String :=
  ["PRODUCT_SEARCH", "COMPATIBILITY_CHECK", "INSTALLATION_HELP",
   "TROUBLESHOOTING", "ORDER_SUPPORT", "OUT_OF_SCOPE"]

/-- The fixed six-way classification instruction sent to the completion
service (opaque data for the oracle). -/
def systemPrompt : String :=
  "You are a routing agent for PartSelect.com chat support.\n"
    ++ "Your job is to classify user queries into ONE of these categories:\n\n"
    ++ "1. PRODUCT_SEARCH - User wants to find parts or browse products\n"
    ++ "   Examples: \"show me ice makers\", \"what dishwasher parts do you have\"\n\n"
    ++ "2. COMPATIBILITY_CHECK - User wants to know if a part works with their model\n"
    ++ "   Examples: \"is this part compatible with my model X\", \"will part Y fit my dishwasher Z\"\n\n"
    ++ "3. INSTALLATION_HELP - User needs help installing a part OR asking about installation time/difficulty\n"
    ++ "   Examples: \n   - \"how do I install part X\"\n   - \"installation instructions for Y\"\n"
    ++ "   - \"how long does installation take\" (if context suggests a specific part)\n"
    ++ "   - \"is this part difficult to install\"\n   - \"what tools do I need\"\n\n"
    ++ "4. TROUBLESHOOTING - User has a broken appliance and needs help diagnosing\n"
    ++ "   Examples: \"my ice maker isn\x27t working\", \"dishwasher won\x27t drain\", \"fridge is too warm\"\n\n"
    ++ "5. ORDER_SUPPORT - User has questions about orders, shipping, returns\n"
    ++ "   Examples: \"where is my order\", \"how do I return this\", \"shipping information\"\n\n"
    ++ "6. OUT_OF_SCOPE - Question is not related to refrigerator/dishwasher parts\n"
    ++ "   Examples: \"what\x27s the weather\", \"tell me a joke\", \"help with my oven\"\n\n"
    ++ "Respond with ONLY the category name (e.g., \"PRODUCT_SEARCH\"). No explanation needed."

/-- Validation of the classifier reply: strip, uppercase, and coerce
anything outside the closed set to `PRODUCT_SEARCH`. -/
def coerceIntent (response : String) : String :=
  let category := upperStr (pyStrip response)
  if validCategories.contains category then category else "PRODUCT_SEARCH"

/-- The outcome of `route`, with a flag recording whether the completion
service was consulted. -/
structure RouteResult where
  intent : String
  usedLlm : Bool
deriving Repr, DecidableEq

/-- `RouterAgent.route`: the two deterministic pre-rules, then the LLM
classifier; a completion-service failure in the fallback propagates. -/
def route (llm : String → String → Option String) (user_message : String)
    (conversation_history : List Turn) : Option RouteResult :=
  let has_part_number := (findPSStr user_message).isSome
  let has_context := (historyWindow 3 conversation_history).any
    (fun t => (findPSStr t.content).isSome)
  if containsKeyword user_message durationKeywords && (has_part_number || has_context) then
    some ⟨"INSTALLATION_HELP", false⟩
  else if containsKeyword user_message installKeywords && has_part_number then
    some ⟨"INSTALLATION_HELP", false⟩
  else
    (llm systemPrompt user_message).map (fun r => ⟨coerceIntent r, true⟩)

end RouterAgent

namespace InstallationAgent

/-- The duration keyword list of `InstallationAgent.handle_query` (the same
five strings are duplicated in the router source). -/
def durationKeywords : List String :=
  ["how long", "how much time", "time estimate", "duration", "take to install"]

/-- The fixed system prompt of `extract_part_number`. -/
def extractionSystemPrompt : String :=
  "Extract the part number from the user\x27s query.\n"
    ++ "Part numbers look like: PS11752778, PS11739232, etc.\n\n"
    ++ "Respond with ONLY the part number, or \"NONE\" if no part number is found.\n\n"
    ++ "Examples:\nUser: \"How do I install PS11752778?\"\nResponse: PS11752778\n\n"
    ++ "User: \"How do I install the ice maker?\"\nResponse: NONE"

/-- `InstallationAgent.extract_part_number`: regex first, then the
completion service (failure propagates); a `NONE` reply means no part. -/
def extract_part_number (llm : String → String → Option String) (user_query : String) :
    Option String :=
  match findPSStr user_query with
  | some pn => some pn
  | none =>
    (llm extractionSystemPrompt user_query).map
      (fun response => let pn := pyStrip response; if pn = "NONE" then "" else pn)

/-- `InstallationAgent.extract_part_from_history`: scan the last 4 turns
most-recent-first and return the first (i.e. most recently mentioned) part
number. -/
def extract_part_from_history (conversation_history : List Turn) : Option String :=
  ((historyWindow 4 conversation_history).reverse).findSome?
    (fun t => findPSStr t.content)

/-- Category keyword detection shared by `find_relevant_parts` and the
part-not-found branch of `handle_query` (`""` = no category detected). -/
def detectCategory (user_query : String) : String :=
  let ql := (lowerStr user_query).data
  if hasSubstring ql "dishwasher".data || hasSubstring ql "dish washer".data then "Dishwasher"
  else if hasSubstring ql "refrigerator".data || hasSubstring ql "fridge".data
      || hasSubstring ql "freezer".data then "Refrigerator"
  else ""

/-- `InstallationAgent.find_relevant_parts`: vector search (with keyword
category filter), then full records from the catalog, dropping identifiers
the catalog does not know. -/
def find_relevant_parts (vsearch : String → Nat → String → List String)
    (catalog : List PartRecord) (user_query : String) (n_results : Nat) :
    List PartRecord :=
  (vsearch user_query n_results (detectCategory user_query)).filterMap (findPart catalog)

/-- The dictionary built by `get_installation_instructions`. -/
structure Instructions where
  part : PartRecord
  steps : List String
  difficulty : String
deriving Repr, DecidableEq

/-- `InstallationAgent.get_installation_instructions`: catalog lookup with
`or`-defaults on steps and difficulty. -/
def get_installation_instructions (catalog : List PartRecord) (part_number : String) :
    Option Instructions :=
  (findPart catalog part_number).map (fun part =>
    { part := part, steps := part.installation_steps,
      difficulty := pyOr part.installation_difficulty "Unknown" })

/-- The static difficulty → time-range table of the source
(`time_estimates.get(difficulty, "30-45 minutes")`). -/
def time_estimate_for (difficulty : String) : String :=
  if difficulty = "Easy" then "10-20 minutes"
  else if difficulty = "Moderate" then "30-60 minutes"
  else if difficulty = "Difficult" then "1-2 hours"
  else "30-45 minutes"

/-- The dictionary returned by the installation handler; keys a branch does
not set are defaulted. -/
structure InstallResult where
  response : String
  agent : String
  error : Option String := none
  part : Option PartRecord := none
  part_number : String := ""
  difficulty : String := ""
  estimated_time : String := ""
  steps : List String := []
  suggested_parts : List PartRecord := []
  no_suggestions : Bool := false
deriving Repr, DecidableEq

/-- The difficulty-specific commentary appended by
`handle_time_estimate_query`. -/
def difficultyCommentary (difficulty : String) : String :=
  if difficulty = "Easy" then
    "This is a straightforward repair that most people can complete quickly. You\x27ll mainly be removing the old part and installing the new one."
  else if difficulty = "Moderate" then
    "This repair requires some disassembly and careful reconnection of components. Take your time to ensure everything is properly connected."
  else if difficulty = "Difficult" then
    "This is a more complex repair that requires careful attention to detail. Consider taking photos of wire connections before disconnecting."
  else ""

/-- `InstallationAgent.handle_time_estimate_query`: clarification when no
part is resolved, `PART_NOT_FOUND` when the catalog lacks it, otherwise the
static-table time estimate. -/
def handle_time_estimate_query (catalog : List PartRecord)
    (user_query part_number : String) : InstallResult :=
  if part_number = "" then
    { response := "I\x27d be happy to give you a time estimate! Which part are you asking about?\n\n"
        ++ "**General time estimates by difficulty:**\n"
        ++ "- 🟢 **Easy:** 10-20 minutes (spray arms, baskets, filters, handles)\n"
        ++ "- 🟡 **Moderate:** 30-60 minutes (valves, motors, door parts, thermostats)\n"
        ++ "- 🔴 **Difficult:** 1-2 hours (pumps, control boards, heating elements)\n\n"
        ++ "💡 Tell me the part number or name, and I\x27ll give you a specific estimate!",
      agent := "installation", error := some "NO_PART_NUMBER_FOR_TIME_ESTIMATE" }
  else
    match get_installation_instructions catalog part_number with
    | none =>
      { response := "I couldn\x27t find part number **" ++ part_number
          ++ "** to provide a time estimate.\n\nCould you double-check the part number?",
        agent := "installation", error := some "PART_NOT_FOUND" }
    | some instructions =>
      let difficulty := instructions.difficulty
      let steps := instructions.steps
      let estimated_time := time_estimate_for difficulty
      let response :=
        "**Installation Time for " ++ instructions.part.name ++ "**\n\n"
          ++ "⏱️ **Estimated Time:** " ++ estimated_time ++ "\n"
          ++ "🔧 **Difficulty:** " ++ difficulty ++ "\n"
          ++ "📋 **Steps:** " ++ toString steps.length ++ " steps to complete\n\n"
          ++ difficultyCommentary difficulty
          ++ "\n\n💡 **Want detailed instructions?** Ask: \x27How do I install "
          ++ part_number ++ "?\x27"
      { response := response, part := some instructions.part, difficulty := difficulty,
        estimated_time := estimated_time, agent := "installation" }

/-- The dynamic system prompt built by the installation
`generate_response` (opaque data for the oracle; the source embeds the part
details and steps in an indented f-string). -/
def generationSystemPrompt (instructions : Instructions) : String :=
  let steps_text := String.intercalate "\n"
    (instructions.steps.enum.map (fun p => toString (p.1 + 1) ++ ". " ++ p.2))
  let estimated_time := time_estimate_for instructions.difficulty
  "You are a helpful PartSelect.com installation guide.\n"
    ++ "The user asked how to install a SPECIFIC part they already have.\n\n"
    ++ "Part Information:\n- Name: " ++ instructions.part.name ++ "\n"
    ++ "- Part Number: " ++ instructions.part.part_number ++ "\n"
    ++ "- Category: " ++ instructions.part.category ++ "\n"
    ++ "- Difficulty: " ++ instructions.difficulty ++ "\n"
    ++ "- Estimated Time: " ++ estimated_time ++ "\n"
    ++ "- Installation Steps:\n" ++ steps_text ++ "\n\n"
    ++ "Provide a complete installation guide with the fixed four-section structure."

/-- One suggestion line of the `NO_PART_NUMBER` soft-recovery response. -/
def suggestionLine (p : Nat × PartRecord) : String :=
  "\n" ++ toString (p.1 + 1) ++ ". **" ++ p.2.name ++ "** (Part #" ++ p.2.part_number
    ++ ")\n   - $" ++ p.2.price ++ " | " ++ pyOr p.2.installation_difficulty "Unknown"
    ++ " difficulty\n   - " ++ String.mk (p.2.description.data.take 80) ++ "...\n"

/-- The `NO_PART_NUMBER` result when the similarity search found candidate
parts to suggest. -/
def noPartSuggestResult (relevant_parts : List PartRecord) : InstallResult :=
  let suggestions := "\n\n**Here are some parts that might match what you\x27re looking for:**\n"
    ++ String.join (relevant_parts.enum.map suggestionLine)
    ++ "\n💡 **To get installation instructions, ask:** \x27How do I install PS[part number]?\x27"
  { response := "I\x27d be happy to help with installation! I need the specific **part number** to provide detailed instructions."
      ++ suggestions,
    agent := "installation", suggested_parts := relevant_parts,
    error := some "NO_PART_NUMBER" }

/-- The `NO_PART_NUMBER` result when no candidate parts were found. -/
def noPartGenericResult : InstallResult :=
  { response := "I\x27d be happy to help with installation! Could you provide the **part number**? It typically looks like **PS** followed by 8 digits.\n\n"
      ++ "You can find the part number:\n- On the part packaging\n- In your order confirmation\n"
      ++ "- By searching for the part name in our catalog\n\n"
      ++ "Or tell me what part you need (e.g., \x27dishwasher spray arm\x27, \x27ice maker assembly\x27) and I can help you find it!",
    agent := "installation", error := some "NO_PART_NUMBER" }

/-- The `PART_NOT_FOUND` branch of the installation handler: strip the part
number out of the query, optionally prefix the detected category, and offer
similar parts. -/
def partNotFoundInstResult (vsearch : String → Nat → String → List String)
    (catalog : List PartRecord) (user_query part_number : String) : InstallResult :=
  let category := detectCategory user_query
  let sq0 := pyStrip (pyReplace user_query part_number "")
  let sq1 := if sq0 = "" then "part " ++ part_number else sq0
  let search_query := if category ≠ "" then category ++ " " ++ sq1 else sq1
  let similar0 := find_relevant_parts vsearch catalog search_query 3
  let similar_parts :=
    if category ≠ "" ∧ similar0 ≠ [] then
      (similar0.filter (fun p => p.category = category)).take 3
    else similar0
  let response :=
    "I couldn\x27t find part number **" ++ part_number ++ "** in our catalog.\n\n"
      ++ (if similar_parts ≠ [] then
            "**Did you mean one of these parts?**\n"
              ++ String.join (similar_parts.enum.map (fun p =>
                  "\n" ++ toString (p.1 + 1) ++ ". **" ++ p.2.name ++ "** (Part #"
                    ++ p.2.part_number ++ ")\n   - $" ++ p.2.price ++ " | "
                    ++ pyOr p.2.installation_difficulty "Unknown" ++ " difficulty\n"))
              ++ "\n💡 Ask: \x27How do I install PS[correct part number]?\x27"
          else
            "**What you can do:**\n- Double-check the part number\n"
              ++ "- Search by part name or symptom\n- Browse available parts by category\n")
  { response := response, agent := "installation", part_number := part_number,
    suggested_parts := similar_parts, error := some "PART_NOT_FOUND" }

/-- The `NO_INSTALLATION_STEPS` result. -/
def noStepsResult (part_number : String) (instructions : Instructions) : InstallResult :=
  { response := "I found **" ++ instructions.part.name ++ "** (Part #" ++ part_number
      ++ "), but detailed installation instructions are not currently available for this part.\n\n"
      ++ "**What this means:**\n"
      ++ "- This is typically a simple replacement part that doesn\x27t require complex installation\n"
      ++ "- You can usually install it by removing the old part and snapping in the new one\n\n"
      ++ "**Need more help?**\n- Contact PartSelect customer service at 1-800-PARTSELECT\n"
      ++ "- Check YouTube for \x27" ++ instructions.part.name ++ " installation\x27\n"
      ++ "- Ask: \x27What tools do I need for " ++ part_number ++ "?\x27\n\n"
      ++ "💰 **Price:** $" ++ instructions.part.price ++ "\n"
      ++ "🔧 **Difficulty:** " ++ instructions.difficulty,
    agent := "installation", part := some instructions.part,
    part_number := part_number, error := some "NO_INSTALLATION_STEPS" }

/-- The deterministic template used when the completion service fails while
narrating a successfully resolved installation guide. -/
def fallbackInstResult (part_number : String) (instructions : Instructions) :
    InstallResult :=
  let response :=
    "**Installation Instructions for " ++ instructions.part.name ++ "**\n\n"
      ++ "**Part Number:** " ++ part_number ++ "\n"
      ++ "**Difficulty:** " ++ instructions.difficulty ++ "\n"
      ++ "**Price:** $" ++ instructions.part.price ++ "\n\n**Steps:**\n"
      ++ String.join (instructions.steps.enum.map (fun p =>
          toString (p.1 + 1) ++ ". " ++ p.2 ++ "\n"))
      ++ "\n⚠️ **Safety First:** Always disconnect power before starting any repair!"
  { response := response, part := some instructions.part, steps := instructions.steps,
    difficulty := instructions.difficulty, agent := "installation" }

/-- The part-number resolution chain at the head of the installation
handler: explicit argument, then current-message extraction (service
failure propagates), then most-recent-first history extraction. -/
def inst_resolve (llm : String → String → Option String)
    (user_query part_number : String) (conversation_history : List Turn) :
    Option String :=
  (if part_number = "" then extract_part_number llm user_query
   else some part_number).map (fun p1 =>
    if p1 = "" ∧ conversation_history ≠ [] then
      (extract_part_from_history conversation_history).getD ""
    else p1)

/-- `InstallationAgent.handle_query`: resolve the part number, dispatch
duration-style queries to `handle_time_estimate_query`, soft-recover when no
part number is resolvable, and fall back to a deterministic template if the
completion service fails while generating the installation narrative. -/
def handle_query (llm : String → String → Option String)
    (vsearch : String → Nat → String → List String) (catalog : List PartRecord)
    (user_query part_number : String) (conversation_history : List Turn) :
    Option InstallResult :=
  match inst_resolve llm user_query part_number conversation_history with
  | none => none
  | some pn =>
    if containsKeyword user_query durationKeywords then
      some (handle_time_estimate_query catalog user_query pn)
    else if pn = "" then
      let relevant_parts := find_relevant_parts vsearch catalog user_query 3
      if relevant_parts ≠ [] then some (noPartSuggestResult relevant_parts)
      else some noPartGenericResult
    else
      match get_installation_instructions catalog pn with
      | none => some (partNotFoundInstResult vsearch catalog user_query pn)
      | some instructions =>
        if instructions.steps = [] then some (noStepsResult pn instructions)
        else
          match llm (generationSystemPrompt instructions) user_query with
          | some response_text =>
            some { response := response_text, part := some instructions.part,
                   steps := instructions.steps, difficulty := instructions.difficulty,
                   agent := "installation", no_suggestions := true }
          | none => some (fallbackInstResult pn instructions)

end InstallationAgent

namespace TroubleshootingAgent

/-- The context dictionary of the troubleshooting
`extract_context_from_history` (`""` = no appliance type). -/
structure TContext where
  appliance_type : String
  symptoms : List String
  previous_parts : List String
deriving Repr, DecidableEq

/-- The fixed symptom vocabulary scanned per turn. -/
def symptomKeywords : List String :=
  ["not working", "leaking", "noisy", "won\x27t drain", "not cooling",
   "not heating", "not spinning", "making noise", "not starting"]

/-- Append an element unless already present (Python
`if x not in xs: xs.append(x)`). -/
def appendNew (xs : List String) (x : String) : List String :=
  if xs.contains x then xs else xs ++ [x]

/-- One turn of troubleshooting context extraction: the appliance type is
overwritten by each matching turn (last matching turn wins), part numbers
and symptoms are accumulated without duplicates. -/
def tsCtxStep (acc : TContext) (t : Turn) : TContext :=
  let lc := (lowerStr t.content).data
  let appliance_type :=
    if hasSubstring lc "refrigerator".data || hasSubstring lc "fridge".data then "Refrigerator"
    else if hasSubstring lc "dishwasher".data then "Dishwasher"
    else acc.appliance_type
  let previous_parts :=
    ((findAllPS t.content.data).map String.mk).foldl appendNew acc.previous_parts
  let symptoms :=
    (symptomKeywords.filter (fun s => hasSubstring lc s.data)).foldl appendNew acc.symptoms
  { appliance_type := appliance_type, symptoms := symptoms,
    previous_parts := previous_parts }

/-- `TroubleshootingAgent.extract_context_from_history` over the last 4
turns (`user_query` is unused in the source as well). -/
def extract_context_from_history (user_query : String) (conversation_history : List Turn) :
    TContext :=
  (historyWindow 4 conversation_history).foldl tsCtxStep ⟨"", [], []⟩

/-- `TroubleshootingAgent.diagnose_problem`: symptom-driven vector search
(optionally category-filtered), resolved to full catalog records. -/
def diagnose_problem (vsearch : String → Nat → String → List String)
    (catalog : List PartRecord) (user_query appliance_type : String) :
    List PartRecord :=
  (vsearch user_query 5 appliance_type).filterMap (findPart catalog)

/-- The dynamic diagnosis system prompt (opaque data for the oracle). -/
def tsSystemPrompt (parts : List PartRecord) (context : TContext) : String :=
  let parts_context := String.intercalate "\n\n" ((parts.take 3).enum.map (fun p =>
    "Possible Solution " ++ toString (p.1 + 1) ++ ": " ++ p.2.name
      ++ "\n- Part Number: " ++ p.2.part_number
      ++ "\n- Price: $" ++ p.2.price
      ++ "\n- Common Symptoms: " ++ String.intercalate ", " p.2.common_symptoms
      ++ "\n- Description: " ++ p.2.description))
  let context_info :=
    if context.appliance_type ≠ "" ∨ context.symptoms ≠ [] ∨ context.previous_parts ≠ [] then
      "\n\nConversation context:\n"
        ++ (if context.appliance_type ≠ "" then
              "- Appliance: " ++ context.appliance_type ++ "\n" else "")
        ++ (if context.symptoms ≠ [] then
              "- Previous symptoms mentioned: "
                ++ String.intercalate ", " (context.symptoms.take 2) ++ "\n" else "")
    else ""
  "You are a helpful PartSelect.com technician assistant.\n"
    ++ "Based on the user\x27s problem, provide a diagnosis and part recommendations.\n\n"
    ++ "Available parts that might help:\n" ++ parts_context ++ context_info
    ++ "\n\nKeep your response conversational and not too technical."

/-- `TroubleshootingAgent.generate_response`: a fixed clarification template
when no parts were found, otherwise a completion-service call whose failure
propagates (the call is not wrapped in any `try`). -/
def ts_generate_response (llm : String → String → Option String)
    (user_query : String) (parts : List PartRecord) (context : TContext) :
    Option String :=
  if parts = [] then
    some ("I understand you\x27re having an issue. Could you provide more details about what\x27s happening with your appliance?")
  else llm (tsSystemPrompt parts context) user_query

/-- The dictionary returned by the troubleshooting handler. -/
structure TResult where
  response : String
  suggested_parts : List PartRecord
  agent : String
deriving Repr, DecidableEq

/-- `TroubleshootingAgent.handle_query`: fuse context, diagnose, and
generate the narrative; a completion-service failure during narrative
generation is uncaught, so it propagates (`none`) and the computed
structured parts list is lost. -/
def handle_query (llm : String → String → Option String)
    (vsearch : String → Nat → String → List String) (catalog : List PartRecord)
    (user_query : String) (conversation_history : List Turn) : Option TResult :=
  let context := extract_context_from_history user_query conversation_history
  let parts := diagnose_problem vsearch catalog user_query context.appliance_type
  (ts_generate_response llm user_query parts context).map (fun response_text =>
    { response := response_text, suggested_parts := parts.take 3,
      agent := "troubleshooting" })

end TroubleshootingAgent

namespace ProductSearchAgent

/-- `ProductSearchAgent.extract_category_from_query` keyword lists (note:
these differ from the installation agent of the category keywords). -/
def dishwasherKeywords : List String := ["dishwasher", "dish washer", "dish-washer"]

/-- Refrigerator keywords of `extract_category_from_query`. -/
def fridgeKeywords : List String := ["refrigerator", "fridge", "freezer", "ice maker"]

/-- `ProductSearchAgent.extract_category_from_query` (`""` = `None`). -/
def extract_category_from_query (query : String) : String :=
  if containsKeyword query dishwasherKeywords then "Dishwasher"
  else if containsKeyword query fridgeKeywords then "Refrigerator"
  else ""

/-- The meta-query phrase list of `is_meta_query`. -/
def metaKeywords : List String :=
  ["what types", "what kind", "what categories", "all types", "all parts",
   "list all", "show all", "available types", "types available",
   "what do you have", "what\x27s available", "what is available"]

/-- `ProductSearchAgent.is_meta_query`. -/
def is_meta_query (query : String) : Bool := containsKeyword query metaKeywords

/-- The similar/alternative keyword list of `handle_query`. -/
def similarKeywords : List String :=
  ["similar", "alternative", "other", "different", "like this"]

/-- The fixed part-name vocabulary scanned by
`extract_context_from_history`. -/
def partKeywords : List String :=
  ["ice maker", "water inlet valve", "spray arm", "pump", "motor", "filter",
   "gasket", "seal", "door", "handle", "shelf", "drawer", "light",
   "thermostat", "compressor"]

/-- The context dictionary of the product-search
`extract_context_from_history`. -/
structure PSContext where
  part_number : String
  part_name : String
  category : String
  model_number : String
  keywords : List String
deriving Repr, DecidableEq

/-- One turn of product-search context extraction: for identifiers the
last regex match *within* the earliest matching turn wins
(`matches[-1]`), category is substring-detected once, and the keyword
vocabulary is accumulated. -/
def psCtxStep (acc : PSContext) (t : Turn) : PSContext :=
  let content := t.content
  let lc := (lowerStr content).data
  let part_matches := (findAllPS content.data).map String.mk
  let part_number :=
    if part_matches ≠ [] ∧ acc.part_number = "" then
      (part_matches.getLast?).getD ""
    else acc.part_number
  let model_matches := findAllModel content.data
  let model_number :=
    if model_matches ≠ [] ∧ acc.model_number = "" then
      (model_matches.getLast?).getD ""
    else acc.model_number
  let category :=
    if hasSubstring lc "refrigerator".data ∧ acc.category = "" then "Refrigerator"
    else if hasSubstring lc "dishwasher".data ∧ acc.category = "" then "Dishwasher"
    else acc.category
  let found := partKeywords.filter (fun kw => hasSubstring lc (lowerStr kw).data)
  let keywords := acc.keywords ++ found
  let part_name := if acc.part_name = "" then (found.head?).getD "" else acc.part_name
  { part_number := part_number, part_name := part_name, category := category,
    model_number := model_number, keywords := keywords }

/-- Order-preserving deduplication. The source deduplicates with
`list(set(...))`, whose ordering is a CPython hashing artifact; the keyword
list is only ever used as opaque text in oracle inputs, so first-occurrence
order is taken as the embedding of the canonical order. -/
def dedup (xs : List String) : List String := xs.foldl TroubleshootingAgent.appendNew []

/-- `ProductSearchAgent.extract_context_from_history` over the last 4 turns
(`user_query` is unused in the source as well). -/
def extract_context_from_history (user_query : String)
    (conversation_history : List Turn) : PSContext :=
  let c := (historyWindow 4 conversation_history).foldl psCtxStep ⟨"", "", "", "", []⟩
  { c with keywords := dedup c.keywords }

/-- `ProductSearchAgent.search_parts`: in reference mode, search with the
reference part of the own name/category/subcategory, exclude the reference
itself, and keep the first 5 alternatives; otherwise a plain top-5 vector
search resolved against the catalog. -/
def search_parts (vsearch : String → Nat → String → List String)
    (catalog : List PartRecord) (query category reference_part_number : String) :
    List PartRecord :=
  let standard := (vsearch query 5 category).filterMap (findPart catalog)
  if reference_part_number ≠ "" then
    match findPart catalog reference_part_number with
    | some reference_part =>
      let search_query := reference_part.name ++ " " ++ reference_part.category
        ++ " " ++ pyOr reference_part.subcategory ""
      let ids := vsearch search_query 6 reference_part.category
      (((ids.filter (fun pn => pn ≠ reference_part_number)).filterMap
        (findPart catalog)).take 5)
    | none => standard
  else standard

/-- Subcategory grouping of `get_available_parts_by_category`
(`subcategory or "Other"`), preserving first-appearance order as Python
dicts do. -/
def groupBySubcategory (parts : List PartRecord) : List (String × List PartRecord) :=
  parts.foldl (fun groups p =>
    let key := pyOr p.subcategory "Other"
    if groups.any (fun g => g.1 = key) then
      groups.map (fun g => if g.1 = key then (g.1, g.2 ++ [p]) else g)
    else groups ++ [(key, [p])]) []

/-- The overview dictionary of `get_available_parts_by_category`. -/
structure PartsOverview where
  category : String
  subcategories : List (String × List PartRecord)
  total_parts : Nat
deriving Repr, DecidableEq

/-- `ProductSearchAgent.get_available_parts_by_category`. -/
def get_available_parts_by_category (catalog : List PartRecord) (category : String) :
    PartsOverview :=
  let all_parts := if category ≠ "" then
      catalog.filter (fun p => p.category = category)
    else catalog
  { category := pyOr category "All", subcategories := groupBySubcategory all_parts,
    total_parts := all_parts.length }

/-- The dynamic meta-query system prompt (opaque data for the oracle). -/
def metaSystemPrompt (overview : PartsOverview) : String :=
  let parts_summary := "Category: " ++ overview.category ++ "\n"
    ++ "Total parts: " ++ toString overview.total_parts ++ "\n\nAvailable by subcategory:\n"
    ++ String.join (overview.subcategories.map (fun g =>
        "\n" ++ g.1 ++ " (" ++ toString g.2.length ++ " parts):\n"
          ++ String.join ((g.2.take 2).map (fun p =>
              "  - " ++ p.name ++ " (Part #" ++ p.part_number ++ ") - $" ++ p.price ++ "\n"))
          ++ (if 2 < g.2.length then
                "  ... and " ++ toString (g.2.length - 2) ++ " more\n" else "")))
  "You are a helpful PartSelect.com customer service agent.\n"
    ++ "The user asked about what types of parts are available in our catalog.\n\n"
    ++ "Here\x27s what we have:\n" ++ parts_summary
    ++ "\nProvide a friendly overview. Keep it organized and easy to scan."

/-- The dynamic recommendation system prompt of the product-search
`generate_response` (opaque data for the oracle). -/
def psSystemPrompt (parts : List PartRecord) (context : PSContext) : String :=
  let parts_context := String.intercalate "\n\n" ((parts.take 3).enum.map (fun p =>
    "Part " ++ toString (p.1 + 1) ++ ":\n- Name: " ++ p.2.name
      ++ "\n- Part Number: " ++ p.2.part_number
      ++ "\n- Price: $" ++ p.2.price
      ++ "\n- Description: " ++ p.2.description
      ++ "\n- Category: " ++ p.2.category ++ " - " ++ p.2.subcategory))
  let context_info :=
    if context.part_number ≠ "" ∨ context.part_name ≠ "" ∨ context.category ≠ ""
        ∨ context.model_number ≠ "" ∨ context.keywords ≠ [] then
      "\n\nConversation context:\n"
        ++ (if context.part_number ≠ "" then
              "- Previous part discussed: " ++ context.part_number ++ "\n" else "")
        ++ (if context.category ≠ "" then
              "- Appliance type: " ++ context.category ++ "\n" else "")
        ++ (if context.keywords ≠ [] then
              "- Keywords: " ++ String.intercalate ", " (context.keywords.take 3) ++ "\n"
            else "")
    else ""
  "You are a helpful PartSelect.com customer service agent.\n"
    ++ "Based on the user\x27s query and the parts found, provide a helpful response.\n\n"
    ++ "Available parts:\n" ++ parts_context ++ "\n" ++ context_info
    ++ "\n\nKeep your response concise (2-4 sentences) and natural."

/-- `ProductSearchAgent.generate_response`: fixed text when nothing was
found, otherwise an uncaught completion-service call. -/
def ps_generate_response (llm : String → String → Option String)
    (user_query : String) (parts : List PartRecord) (context : PSContext) :
    Option String :=
  if parts = [] then
    some "I couldn\x27t find any parts matching your search. Could you provide more details about what you\x27re looking for?"
  else llm (psSystemPrompt parts context) user_query

/-- The dictionary returned by the product-search handler. -/
structure PSResult where
  response : String
  parts : List PartRecord
  agent : String
deriving Repr, DecidableEq

/-- `ProductSearchAgent.handle_query`: category resolution, meta-query
branch, similar/alternative branch with a history reference part, short
queries enriched with context keywords, then search and narrative (whose
completion-service failures are uncaught). -/
def handle_query (llm : String → String → Option String)
    (vsearch : String → Nat → String → List String) (catalog : List PartRecord)
    (user_query category : String) (conversation_history : List Turn) :
    Option PSResult :=
  let context := extract_context_from_history user_query conversation_history
  let cat1 := if category = "" then extract_category_from_query user_query else category
  let cat2 := if cat1 = "" then context.category else cat1
  if is_meta_query user_query then
    let parts_overview := get_available_parts_by_category catalog cat2
    (llm (metaSystemPrompt parts_overview) user_query).map (fun response_text =>
      let sample_parts := parts_overview.subcategories.flatMap (fun g => g.2.take 1)
      { response := response_text, parts := sample_parts.take 5,
        agent := "product_search" })
  else
    let is_similar_query := containsKeyword user_query similarKeywords
    let er : String × String :=
      if is_similar_query ∧ context.part_number ≠ "" then
        (user_query, context.part_number)
      else if (pyWords user_query).length ≤ 3 ∧ context.keywords ≠ [] then
        (user_query ++ " " ++ String.intercalate " " (context.keywords.take 2), "")
      else (user_query, "")
    let parts := search_parts vsearch catalog er.1 cat2 er.2
    (ps_generate_response llm user_query parts context).map (fun response_text =>
      { response := response_text, parts := parts.take 3, agent := "product_search" })

end ProductSearchAgent

namespace CompatibilityAgent

/-- The missing-entity result that `handle_query` produces for a resolved
pair with at least one empty slot (the branch order of the source). -/
def missingResult (p m : String) : HandlerResult :=
  if p = "" ∧ m = "" then missingBothResult
  else if p = "" then missingPartResult m
  else missingModelResult p

/-- The error code paired with `missingResult`. -/
def missingCode (p m : String) : String :=
  if p = "" ∧ m = "" then "MISSING_BOTH"
  else if p = "" then "MISSING_PART_NUMBER"
  else "MISSING_MODEL_NUMBER"

/-- The model-number candidate a single turn contributes in
`extract_from_history`: the leftmost model-pattern match, unless it starts
with `PS`, in which case the turn contributes nothing for this field. -/
def modelCandidate (t : Turn) : Option String :=
  match findModelStr t.content with
  | some s => if ("PS".data).isPrefixOf s.data then none else some s
  | none => none

end CompatibilityAgent

/-! Concrete data used to exercise the embedding in closed theorems. -/

/-- A small catalog part with `Easy` difficulty and two compatible models. -/
def demoPartEasy : PartRecord :=
  { part_number := "PS100", name := "Ice Maker Assembly", category := "Refrigerator",
    subcategory := "Ice Makers", price := "89.99",
    description := "Complete ice maker assembly.",
    installation_difficulty := "Easy",
    installation_steps := ["Unplug the unit", "Swap the part"],
    common_symptoms := ["no ice"],
    compatible_models := ["MODEL_A", "MODEL_B"] }

/-- A one-part demo catalog. -/
def demoCatalog : List PartRecord := [demoPartEasy]

/-- A two-turn history mentioning PS100 first and PS200 later. -/
def c2History : List Turn :=
  [⟨"user", "My fridge needs part PS100"⟩, ⟨"user", "Or maybe PS200 instead"⟩]

/-- A two-turn history whose first turn has a model-pattern match that is
discarded as PS-prefixed, and whose second turn carries a real model. -/
def c2ModelHistory : List Turn :=
  [⟨"user", "Is PS11739232 right for it?"⟩, ⟨"user", "It is for WRS325SDHZ"⟩]

/-- A catalog part whose record a troubleshooting diagnosis can surface. -/
def c3Part : PartRecord :=
  { part_number := "PS900", name := "Drain Pump", category := "Dishwasher",
    subcategory := "Pumps", price := "45.99", description := "Dishwasher drain pump.",
    installation_difficulty := "Moderate", installation_steps := ["Remove panel"],
    common_symptoms := ["wont drain"], compatible_models := ["MODA"] }

/-- A similarity-search oracle that always surfaces the drain pump. -/
def c3Vsearch : String → Nat → String → List String := fun _ _ _ => ["PS900"]

/-- A completion-service oracle returning fixed key:value lines reporting no
identifiers. -/
def c7Llm : String → String → Option String :=
  fun _ _ => some "PART_NUMBER: NONE\nMODEL_NUMBER: NONE"

/-- The reference part of the similar-parts scenario. -/
def c8Ref : PartRecord :=
  { part_number := "PS300", name := "Upper Spray Arm", category := "Dishwasher",
    subcategory := "Spray Arms", price := "24.99", description := "Upper spray arm.",
    installation_difficulty := "Easy", installation_steps := [],
    common_symptoms := [], compatible_models := [] }

/-- An alternative spray-arm part with the given part number. -/
def c8AltPart (pn : String) : PartRecord :=
  { part_number := pn, name := "Spray Arm " ++ pn, category := "Dishwasher",
    subcategory := "Spray Arms", price := "19.99", description := "Spray arm.",
    installation_difficulty := "Easy", installation_steps := [],
    common_symptoms := [], compatible_models := [] }

/-- A catalog with the reference part and five alternatives. -/
def c8Catalog : List PartRecord :=
  c8Ref :: (["PS301", "PS302", "PS303", "PS304", "PS305"].map c8AltPart)

/-- A similarity-search oracle returning the reference and all five
alternatives. -/
def c8Vsearch : String → Nat → String → List String :=
  fun _ _ _ => ["PS300", "PS301", "PS302", "PS303", "PS304", "PS305"]

/-- A history establishing PS300 as the reference part. -/
def c8History : List Turn := [⟨"user", "I bought PS300"⟩]

/-- A completion-service oracle that always answers. -/
def c8Llm : String → String → Option String := fun _ _ => some "Here are some alternatives."

/-- The alternatives list computed by the reference branch of
`ProductSearchAgent.search_parts`: a vector search over the reference
part of the name, category and subcategory, with the reference excluded and
at most 5 kept. -/
def similarAlternatives (vsearch : String → Nat → String → List String)
    (catalog : List PartRecord) (reference : String) (rp : PartRecord) :
    List PartRecord :=
  (((vsearch (rp.name ++ " " ++ rp.category ++ " " ++ pyOr rp.subcategory "")
      6 rp.category).filter (fun pn => pn ≠ reference)).filterMap
    (findPart catalog)).take 5

/-! Supporting lemmas. -/

/-- A successful anchored `PS\d+` match is never the empty string. -/
theorem psAt_ne_nil : ∀ {l r : List Char}, psAt l = some r → r ≠ [] := by
  intro l r h
  match l with
  | [] => simp [psAt] at h
  | [c] => simp [psAt] at h
  | c₁ :: c₂ :: rest =>
    simp only [psAt] at h
    split at h
    · cases h; simp
    · cases h

/-- A successful `PS\d+` search never returns the empty string. -/
theorem findPS_ne_nil : ∀ {l r : List Char}, findPS l = some r → r ≠ [] := by
  intro l
  induction l with
  | nil => intro r h; simp [findPS] at h
  | cons c cs ih =>
    intro r h
    rw [findPS] at h
    cases hp : psAt (c :: cs) with
    | some r' => rw [hp] at h; cases h; exact psAt_ne_nil hp
    | none => rw [hp] at h; exact ih h

/-- String-level version of `findPS_ne_nil`. -/
theorem findPSStr_ne_empty {s : String} {m : String} (h : findPSStr s = some m) :
    m ≠ "" := by
  unfold findPSStr at h
  cases hf : findPS s.data with
  | none => rw [hf] at h; cases h
  | some r =>
    rw [hf] at h
    cases h
    intro hcon
    exact findPS_ne_nil hf (congrArg String.data hcon)

/-- `extractFromHistoryAux` never overwrites an already-set part number. -/
theorem extractFromHistoryAux_part_stable :
    ∀ (l : List Turn) (acc : CompatibilityAgent.Extracted), acc.part_number ≠ "" →
      (CompatibilityAgent.extractFromHistoryAux acc l).part_number = acc.part_number := by
  intro l
  induction l with
  | nil => intro acc _; rfl
  | cons t ts ih =>
    intro acc h
    rw [CompatibilityAgent.extractFromHistoryAux]
    simp only [if_pos h]
    exact ih _ h

/-- The part-number component of history extraction is the first `PS\d+`
match over the scanned turns, independently of the model accumulator. -/
theorem extractFromHistoryAux_part_eq_findSome :
    ∀ (l : List Turn) (m₀ : String),
      (CompatibilityAgent.extractFromHistoryAux ⟨"", m₀⟩ l).part_number
        = (l.findSome? (fun t => findPSStr t.content)).getD "" := by
  intro l
  induction l with
  | nil => intro m₀; rfl
  | cons t ts ih =>
    intro m₀
    rw [CompatibilityAgent.extractFromHistoryAux]
    cases hf : findPSStr t.content with
    | none =>
      simp only [ne_eq, not_true_eq_false, if_false, hf, Option.getD_none,
        List.findSome?_cons, hf]
      exact ih _
    | some m =>
      have hm : m ≠ "" := findPSStr_ne_empty hf
      simp only [ne_eq, not_true_eq_false, if_false, hf, Option.getD_some,
        List.findSome?_cons]
      rw [extractFromHistoryAux_part_stable _ _ hm]

/-- Every matched model token has length at least 7, hence is non-empty. -/
theorem findAllModel_mem_ne_empty : ∀ {l : List Char} {m : String},
    m ∈ findAllModel l → m ≠ "" := by
  intro l m hm hcon
  unfold findAllModel at hm
  obtain ⟨r, hr, hmk⟩ := List.mem_map.mp hm
  have hok := (List.mem_filter.mp hr).2
  have h7 : 7 ≤ r.length := by
    unfold modelRunOk at hok
    simp only [Bool.and_eq_true, decide_eq_true_eq] at hok
    exact hok.2
  cases r with
  | nil => simp at h7
  | cons x xs =>
    have hdata : (x :: xs).map Char.toUpper = m.data := congrArg String.data hmk
    rw [hcon] at hdata
    simp only [show ("" : String).data = [] from rfl, List.map_cons] at hdata
    exact List.cons_ne_nil _ _ hdata

/-- A successful model-pattern search never returns the empty string. -/
theorem findModelStr_ne_empty {s m : String} (h : findModelStr s = some m) :
    m ≠ "" := by
  unfold findModelStr at h
  cases hl : findAllModel s.data with
  | nil => rw [hl] at h; cases h
  | cons a t =>
    rw [hl] at h
    cases h
    intro hcon
    exact findAllModel_mem_ne_empty (by rw [hl]; exact List.mem_cons_self _ _) hcon

/-- `extractFromHistoryAux` never overwrites an already-set model number. -/
theorem extractFromHistoryAux_model_stable :
    ∀ (l : List Turn) (acc : CompatibilityAgent.Extracted), acc.model_number ≠ "" →
      (CompatibilityAgent.extractFromHistoryAux acc l).model_number = acc.model_number := by
  intro l
  induction l with
  | nil => intro acc _; rfl
  | cons t ts ih =>
    intro acc h
    rw [CompatibilityAgent.extractFromHistoryAux]
    simp only [if_pos h]
    exact ih _ h

/-- The model-number component of history extraction is the first surviving
(non-`PS`-prefixed) model match over the scanned turns, independently of
the part accumulator. -/
theorem extractFromHistoryAux_model_eq_findSome :
    ∀ (l : List Turn) (p₀ : String),
      (CompatibilityAgent.extractFromHistoryAux ⟨p₀, ""⟩ l).model_number
        = (l.findSome? CompatibilityAgent.modelCandidate).getD "" := by
  intro l
  induction l with
  | nil => intro p₀; rfl
  | cons t ts ih =>
    intro p₀
    rw [CompatibilityAgent.extractFromHistoryAux]
    cases hf : findModelStr t.content with
    | none =>
      have hc : CompatibilityAgent.modelCandidate t = none := by
        unfold CompatibilityAgent.modelCandidate
        rw [hf]
      simp only [ne_eq, not_true_eq_false, if_false, hf, List.findSome?_cons, hc]
      exact ih _
    | some s =>
      by_cases hps : ("PS".data).isPrefixOf s.data = true
      · have hc : CompatibilityAgent.modelCandidate t = none := by
          unfold CompatibilityAgent.modelCandidate
          rw [hf]
          show (if ("PS".data).isPrefixOf s.data = true then none else some s) = none
          rw [if_pos hps]
        simp only [ne_eq, not_true_eq_false, if_false, hf, if_pos hps,
          List.findSome?_cons, hc]
        exact ih _
      · have hs : s ≠ "" := findModelStr_ne_empty hf
        have hc : CompatibilityAgent.modelCandidate t = some s := by
          unfold CompatibilityAgent.modelCandidate
          rw [hf]
          show (if ("PS".data).isPrefixOf s.data = true then none else some s) = some s
          rw [if_neg hps]
        simp only [ne_eq, not_true_eq_false, if_false, hf, if_neg hps,
          List.findSome?_cons, hc, Option.getD_some]
        exact extractFromHistoryAux_model_stable _ _ hs

/-- `findSome?` skips a prefix on which the function returns `none`. -/
theorem findSome?_append_of_none {α β : Type} (f : α → Option β) :
    ∀ (pre rest : List α), (∀ u ∈ pre, f u = none) →
      (pre ++ rest).findSome? f = rest.findSome? f := by
  intro pre
  induction pre with
  | nil => intro rest _; rfl
  | cons a l ih =>
    intro rest h
    simp only [List.cons_append, List.findSome?_cons, h a (by simp)]
    exact ih rest (fun u hu => h u (by simp [hu]))

/-! Claim theorems. -/

/-- C1: the spec claims that both single-message and history-window entity
extraction discard any model-pattern match that also satisfies the
part-identifier pattern. The single-message extractor
`extract_part_and_model` has no such exclusion: on a message containing
both `PS11752778` and `WDT780SAEM1` it assigns the part identifier
`PS11752778` (a full `PS\d+` match) to the model-number field. -/
theorem c1_single_message_extraction_assigns_part_pattern_to_model :
    CompatibilityAgent.extract_part_and_model (fun _ _ => none)
        "Is part PS11752778 compatible with my WDT780SAEM1 model?"
      = some ⟨"PS11752778", "PS11752778"⟩
    ∧ isPartIdentifier "PS11752778" = true := by
  constructor
  · rfl
  · rfl

/-- C3: the spec claims every handler wraps narrative generation around an
already-computed structured result in a deterministic fallback. The
troubleshooting handler does not: with a diagnosis that has surfaced the
drain pump (a non-empty structured parts list), a completion-service
failure during narrative generation propagates out of `handle_query`
(`none`), losing the structured result. -/
theorem c3_troubleshooting_service_failure_loses_result :
    TroubleshootingAgent.handle_query (fun _ _ => none) c3Vsearch [c3Part]
        "my dishwasher is leaking" [] = none
    ∧ TroubleshootingAgent.diagnose_problem c3Vsearch [c3Part]
        "my dishwasher is leaking"
        (TroubleshootingAgent.extract_context_from_history
          "my dishwasher is leaking" []).appliance_type = [c3Part] := by
  constructor
  · rfl
  · rfl

/-- C6: `check_compatibility` reports `PART_NOT_FOUND` with `compatible =
none` and an explanation carrying the queried identifier when the part is
absent; when present, the verdict is exactly case-insensitive membership of
the model number in the part of the compatible-model list, and an incompatible
result carries the first five compatible models as suggestions. -/
theorem c6_check_compatibility_membership_and_not_found :
    ∀ (catalog : List PartRecord) (pn mn : String),
      (findPart catalog pn = none →
        CompatibilityAgent.check_compatibility catalog pn mn =
          { compatible := none, confidence := "high",
            explanation := "Part number " ++ pn ++ " not found in our database.",
            error := some "PART_NOT_FOUND" })
      ∧ (∀ p, findPart catalog pn = some p →
          ((CompatibilityAgent.check_compatibility catalog pn mn).compatible =
              some ((p.compatible_models.map upperStr).contains (upperStr mn)))
          ∧ ((p.compatible_models.map upperStr).contains (upperStr mn) = false →
              (CompatibilityAgent.check_compatibility catalog pn mn).compatible_models
                = p.compatible_models.take 5)) := by
  intro catalog pn mn
  constructor
  · intro hnone
    unfold CompatibilityAgent.check_compatibility
    rw [hnone]
  · intro p hp
    have hcc : CompatibilityAgent.check_compatibility catalog pn mn =
        if (p.compatible_models.map upperStr).contains (upperStr mn) then
          { compatible := some true, confidence := "high",
            explanation := "Yes! The " ++ p.name ++ " (part #" ++ pn
              ++ ") is compatible with model " ++ mn ++ ".",
            part := some p }
        else
          { compatible := some false, confidence := "medium",
            explanation := "The " ++ p.name ++ " (part #" ++ pn
              ++ ") is not listed as compatible with model " ++ mn ++ ".",
            part := some p, compatible_models := p.compatible_models.take 5 } := by
      unfold CompatibilityAgent.check_compatibility
      rw [hp]
    constructor
    · rw [hcc]
      cases hb : (p.compatible_models.map upperStr).contains (upperStr mn)
      · rfl
      · rfl
    · intro hfalse
      rw [hcc, hfalse]
      rfl

/-- C6 witness: on the demo catalog, an unknown part yields
`PART_NOT_FOUND` with `compatible = none`; for `PS100` the verdict is
`true` for `model_a` (case-insensitive), `false` for `MODEL_C`, and the
incompatible result lists the two compatible models. -/
theorem c6_witness :
    (CompatibilityAgent.check_compatibility demoCatalog "PS_UNKNOWN" "MODEL_A").error
        = some "PART_NOT_FOUND"
    ∧ (CompatibilityAgent.check_compatibility demoCatalog "PS_UNKNOWN" "MODEL_A").compatible
        = none
    ∧ (CompatibilityAgent.check_compatibility demoCatalog "PS100" "model_a").compatible
        = some true
    ∧ (CompatibilityAgent.check_compatibility demoCatalog "PS100" "MODEL_C").compatible
        = some false
    ∧ (CompatibilityAgent.check_compatibility demoCatalog "PS100" "MODEL_C").compatible_models
        = ["MODEL_A", "MODEL_B"] := by
  have h1 := (c6_check_compatibility_membership_and_not_found demoCatalog "PS_UNKNOWN" "MODEL_A").1
    (by decide)
  have h2 := (c6_check_compatibility_membership_and_not_found demoCatalog "PS100" "model_a").2
    demoPartEasy (by decide)
  have h3 := (c6_check_compatibility_membership_and_not_found demoCatalog "PS100" "MODEL_C").2
    demoPartEasy (by decide)
  refine ⟨by rw [h1], by rw [h1], ?_, ?_, ?_⟩
  · rw [h2.1]; decide
  · rw [h3.1]; decide
  · rw [h3.2 (by decide)]; decide

/-- C2 counterexample: the claim asserts earliest-wins history extraction
for every handler; on a history whose first turn mentions PS100 and whose
later turn mentions PS200, the installation handler of the history extraction
returns PS200, not PS100 (it scans the window most-recent-first). -/
theorem c2_counterexample_installation_latest_wins :
    InstallationAgent.extract_part_from_history c2History = some "PS200"
    ∧ InstallationAgent.extract_part_from_history c2History ≠ some "PS100" := by
  constructor
  · rfl
  · decide

/-- C2 (amended): the Compatibility handler of the history extraction scans
the last-4-turn window in chronological order and keeps the earliest match
per field: the part number comes from the earliest turn with a `PS\d+`
match (first conjunct), and the model number from the earliest turn whose
leftmost model-pattern match survives the `PS`-prefix discard (third
conjunct); the Installation handler of the history extraction instead
scans the same window most-recent-first and returns the match from the
latest qualifying turn (second conjunct). -/
theorem c2_history_extraction_scan_order :
    (∀ (h pre post : List Turn) (t : Turn) (m : String),
      historyWindow 4 h = pre ++ t :: post →
      (∀ u ∈ pre, findPSStr u.content = none) →
      findPSStr t.content = some m →
      (CompatibilityAgent.extract_from_history h).part_number = m)
    ∧ (∀ (h pre post : List Turn) (t : Turn) (m : String),
      historyWindow 4 h = pre ++ t :: post →
      (∀ u ∈ post, findPSStr u.content = none) →
      findPSStr t.content = some m →
      InstallationAgent.extract_part_from_history h = some m)
    ∧ (∀ (h pre post : List Turn) (t : Turn) (m : String),
      historyWindow 4 h = pre ++ t :: post →
      (∀ u ∈ pre, CompatibilityAgent.modelCandidate u = none) →
      CompatibilityAgent.modelCandidate t = some m →
      (CompatibilityAgent.extract_from_history h).model_number = m) := by
  refine ⟨?_, ?_, ?_⟩
  · intro h pre post t m hw hpre ht
    unfold CompatibilityAgent.extract_from_history
    rw [extractFromHistoryAux_part_eq_findSome, hw,
      findSome?_append_of_none _ pre (t :: post) hpre]
    simp [List.findSome?_cons, ht]
  · intro h pre post t m hw hpost ht
    unfold InstallationAgent.extract_part_from_history
    rw [hw]
    have hrev : (pre ++ t :: post).reverse = post.reverse ++ t :: pre.reverse := by
      simp
    rw [hrev, findSome?_append_of_none _ post.reverse (t :: pre.reverse)
      (fun u hu => hpost u (List.mem_reverse.mp hu))]
    simp [List.findSome?_cons, ht]
  · intro h pre post t m hw hpre ht
    unfold CompatibilityAgent.extract_from_history
    rw [extractFromHistoryAux_model_eq_findSome, hw,
      findSome?_append_of_none _ pre (t :: post) hpre]
    simp [List.findSome?_cons, ht]

/-- C2 witness: on the concrete two-turn histories the compatibility
extraction keeps the earliest part number PS100 and the model number
WRS325SDHZ from the second turn (the first turn, whose only model-pattern
match is the PS-prefixed PS11739232, is discarded), while the installation
extraction returns the latest part number PS200. -/
theorem c2_history_extraction_scan_order_witness :
    (CompatibilityAgent.extract_from_history c2History).part_number = "PS100"
    ∧ InstallationAgent.extract_part_from_history c2History = some "PS200"
    ∧ (CompatibilityAgent.extract_from_history c2ModelHistory).model_number
        = "WRS325SDHZ" := by
  refine ⟨?_, ?_, ?_⟩
  · exact c2_history_extraction_scan_order.1 c2History []
      [⟨"user", "Or maybe PS200 instead"⟩] ⟨"user", "My fridge needs part PS100"⟩
      "PS100" (by rfl) (by simp) (by rfl)
  · exact c2_history_extraction_scan_order.2.1 c2History
      [⟨"user", "My fridge needs part PS100"⟩] [] ⟨"user", "Or maybe PS200 instead"⟩
      "PS200" (by rfl) (by simp) (by rfl)
  · exact c2_history_extraction_scan_order.2.2 c2ModelHistory
      [⟨"user", "Is PS11739232 right for it?"⟩] [] ⟨"user", "It is for WRS325SDHZ"⟩
      "WRS325SDHZ" (by rfl) (by decide) (by rfl)

/-- C4: a message with a duration keyword together with a part identifier
in the message or in the last 3 history turns is routed to
`INSTALLATION_HELP` by pre-rule, for every completion-service oracle and
without consulting it (first conjunct); a duration message with no part
identifier and an empty history is instead handed to the LLM classifier
(second conjunct). -/
theorem c4_duration_prerule_and_fallthrough :
    (∀ (llm : String → String → Option String) (msg : String) (h : List Turn),
      containsKeyword msg RouterAgent.durationKeywords = true →
      ((findPSStr msg).isSome = true
        ∨ (historyWindow 3 h).any (fun t => (findPSStr t.content).isSome) = true) →
      RouterAgent.route llm msg h = some ⟨"INSTALLATION_HELP", false⟩)
    ∧ (∀ (llm : String → String → Option String) (msg : String),
      containsKeyword msg RouterAgent.durationKeywords = true →
      findPSStr msg = none →
      RouterAgent.route llm msg [] =
        (llm RouterAgent.systemPrompt msg).map
          (fun r => ⟨RouterAgent.coerceIntent r, true⟩)) := by
  constructor
  · intro llm msg h h1 h2
    unfold RouterAgent.route
    rcases h2 with ha | hb
    · simp [h1, ha]
    · simp [h1, hb]
  · intro llm msg h1 h2
    unfold RouterAgent.route
    simp [h2, historyWindow]

/-- C4 witness: a duration query naming PS11752778 is pre-ruled to
`INSTALLATION_HELP` without the service; the bare duration query with empty
history goes to the classifier (which here answers TROUBLESHOOTING). -/
theorem c4_duration_prerule_witness :
    RouterAgent.route (fun _ _ => some "TROUBLESHOOTING")
        "how long will PS11752778 take to install" []
      = some ⟨"INSTALLATION_HELP", false⟩
    ∧ RouterAgent.route (fun _ _ => some "TROUBLESHOOTING")
        "how long does installation take" []
      = some ⟨"TROUBLESHOOTING", true⟩ := by
  constructor
  · exact c4_duration_prerule_and_fallthrough.1 _ _ _ (by rfl) (Or.inl (by rfl))
  · rw [c4_duration_prerule_and_fallthrough.2 (fun _ _ => some "TROUBLESHOOTING")
      "how long does installation take" (by rfl) (by rfl)]
    rfl

/-- C5: for every message, history and completion-service reply, the router
returns exactly one intent from the closed six-element set, and whenever
the classifier was consulted and the stripped uppercased reply is not one
of the six tokens, the intent is coerced to `PRODUCT_SEARCH`. -/
theorem c5_route_totality_and_coercion :
    ∀ (msg : String) (h : List Turn) (reply : String),
      ∃ r, RouterAgent.route (fun _ _ => some reply) msg h = some r
        ∧ r.intent ∈ RouterAgent.validCategories
        ∧ (r.usedLlm = true →
            upperStr (pyStrip reply) ∉ RouterAgent.validCategories →
            r.intent = "PRODUCT_SEARCH") := by
  intro msg h reply
  unfold RouterAgent.route
  by_cases h1 : (containsKeyword msg RouterAgent.durationKeywords
      && ((findPSStr msg).isSome
        || (historyWindow 3 h).any (fun t => (findPSStr t.content).isSome))) = true
  · exact ⟨⟨"INSTALLATION_HELP", false⟩, by simp [h1], by decide, by simp⟩
  · simp only [Bool.not_eq_true] at h1
    by_cases h2 : (containsKeyword msg RouterAgent.installKeywords
        && (findPSStr msg).isSome) = true
    · exact ⟨⟨"INSTALLATION_HELP", false⟩, by simp [h1, h2], by decide, by simp⟩
    · simp only [Bool.not_eq_true] at h2
      refine ⟨⟨RouterAgent.coerceIntent reply, true⟩, by simp [h1, h2], ?_, ?_⟩
      · show RouterAgent.coerceIntent reply ∈ RouterAgent.validCategories
        by_cases hc : upperStr (pyStrip reply) ∈ RouterAgent.validCategories
        · simp [RouterAgent.coerceIntent, hc]
        · simp only [RouterAgent.coerceIntent]
          rw [if_neg (by simpa using hc)]
          decide
      · intro _ hniv
        show RouterAgent.coerceIntent reply = "PRODUCT_SEARCH"
        simp only [RouterAgent.coerceIntent]
        rw [if_neg (by simpa using hniv)]

/-- C5 witness: a plain greeting with a whitespace-padded nonsense reply is
coerced to `PRODUCT_SEARCH`. -/
theorem c5_route_totality_witness :
    ∃ r, RouterAgent.route (fun _ _ => some " some garbage ") "hello there" [] = some r
      ∧ r.intent ∈ RouterAgent.validCategories
      ∧ (r.usedLlm = true →
          upperStr (pyStrip " some garbage ") ∉ RouterAgent.validCategories →
          r.intent = "PRODUCT_SEARCH") :=
  c5_route_totality_and_coercion "hello there" [] " some garbage "

/-- C7: when the full resolution chain of the compatibility handler leaves
at least one identifier empty, `handle_query` returns a missing-entity
result with `compatible = none`, whose error code distinguishes which
entity is absent (`MISSING_BOTH` / `MISSING_PART_NUMBER` /
`MISSING_MODEL_NUMBER`), and the outcome is independent of the catalog
(the catalog store is not consulted). -/
theorem c7_missing_entity_errors :
    ∀ (llm : String → String → Option String) (catalog : List PartRecord)
      (q pn mn : String) (h : List Turn) (p m : String),
      CompatibilityAgent.resolveEntities llm q pn mn h = some (p, m) →
      p = "" ∨ m = "" →
      CompatibilityAgent.handle_query llm catalog q pn mn h
          = some (CompatibilityAgent.missingResult p m)
      ∧ (CompatibilityAgent.missingResult p m).compatible = none
      ∧ (CompatibilityAgent.missingResult p m).error
          = some (CompatibilityAgent.missingCode p m)
      ∧ ∀ catalog₂, CompatibilityAgent.handle_query llm catalog₂ q pn mn h
          = CompatibilityAgent.handle_query llm catalog q pn mn h := by
  intro llm catalog q pn mn h p m hres hmiss
  have key : ∀ cat : List PartRecord,
      CompatibilityAgent.handle_query llm cat q pn mn h
        = some (CompatibilityAgent.missingResult p m) := by
    intro cat
    unfold CompatibilityAgent.handle_query
    rw [hres]
    unfold CompatibilityAgent.missingResult
    by_cases hp : p = ""
    · by_cases hm : m = ""
      · simp [hp, hm]
      · simp [hp, hm]
    · have hm : m = "" := hmiss.resolve_left hp
      simp [hp, hm]
  refine ⟨key catalog, ?_, ?_, fun c₂ => by rw [key c₂, key catalog]⟩
  · unfold CompatibilityAgent.missingResult
    by_cases hp : p = "" <;> by_cases hm : m = "" <;>
      simp [hp, hm, CompatibilityAgent.missingBothResult,
        CompatibilityAgent.missingPartResult, CompatibilityAgent.missingModelResult]
  · unfold CompatibilityAgent.missingResult CompatibilityAgent.missingCode
    by_cases hp : p = "" <;> by_cases hm : m = "" <;>
      simp [hp, hm, CompatibilityAgent.missingBothResult,
        CompatibilityAgent.missingPartResult, CompatibilityAgent.missingModelResult]

/-- C7 witness: a query with no extractable identifiers, a service reply of
two NONE lines and an empty history resolves to `("", "")`, and the handler
reports `MISSING_BOTH` with `compatible = none` on the demo catalog. -/
theorem c7_missing_entity_errors_witness :
    CompatibilityAgent.handle_query c7Llm demoCatalog "check fit" "" "" []
        = some (CompatibilityAgent.missingResult "" "")
    ∧ (CompatibilityAgent.missingResult "" "").error = some "MISSING_BOTH"
    ∧ (CompatibilityAgent.missingResult "" "").compatible = none := by
  have h := c7_missing_entity_errors c7Llm demoCatalog "check fit" "" "" [] "" ""
    (by rfl) (Or.inl rfl)
  exact ⟨h.1, by rw [h.2.2.1]; rfl, h.2.1⟩

/-- C9: for a duration-style installation query whose resolved part number
exists in the catalog, the handler dispatches to
`handle_time_estimate_query`, whose estimated-time string is the static
table applied to the part of the installation difficulty: Easy, Moderate and
Difficult map to their fixed ranges and any other value yields the
`30-45 minutes` default. -/
theorem c9_duration_estimate_static_table :
    ∀ (llm : String → String → Option String)
      (vsearch : String → Nat → String → List String) (catalog : List PartRecord)
      (q pn pr : String) (h : List Turn) (part : PartRecord),
      containsKeyword q InstallationAgent.durationKeywords = true →
      InstallationAgent.inst_resolve llm q pn h = some pr →
      findPart catalog pr = some part →
      InstallationAgent.handle_query llm vsearch catalog q pn h
          = some (InstallationAgent.handle_time_estimate_query catalog q pr)
      ∧ (pr ≠ "" →
          (InstallationAgent.handle_time_estimate_query catalog q pr).estimated_time
            = InstallationAgent.time_estimate_for
                (pyOr part.installation_difficulty "Unknown"))
      ∧ InstallationAgent.time_estimate_for "Easy" = "10-20 minutes"
      ∧ InstallationAgent.time_estimate_for "Moderate" = "30-60 minutes"
      ∧ InstallationAgent.time_estimate_for "Difficult" = "1-2 hours"
      ∧ (∀ d, d ≠ "Easy" → d ≠ "Moderate" → d ≠ "Difficult" →
          InstallationAgent.time_estimate_for d = "30-45 minutes") := by
  intro llm vsearch catalog q pn pr h part hdur hres hfind
  refine ⟨?_, ?_, rfl, rfl, rfl, ?_⟩
  · unfold InstallationAgent.handle_query
    rw [hres]
    simp [hdur]
  · intro hpr
    unfold InstallationAgent.handle_time_estimate_query
    rw [if_neg hpr]
    unfold InstallationAgent.get_installation_instructions
    rw [hfind]
    rfl
  · intro d h1 h2 h3
    unfold InstallationAgent.time_estimate_for
    rw [if_neg h1, if_neg h2, if_neg h3]

/-- C9 witness: the duration query about PS100 (difficulty `Easy`) resolves
via the message regex and yields exactly `10-20 minutes`. -/
theorem c9_duration_estimate_witness :
    InstallationAgent.handle_query (fun _ _ => none) c3Vsearch demoCatalog
        "how long does PS100 take to install" "" []
      = some (InstallationAgent.handle_time_estimate_query demoCatalog
          "how long does PS100 take to install" "PS100")
    ∧ (InstallationAgent.handle_time_estimate_query demoCatalog
        "how long does PS100 take to install" "PS100").estimated_time
      = "10-20 minutes" := by
  have h := c9_duration_estimate_static_table (fun _ _ => none) c3Vsearch demoCatalog
    "how long does PS100 take to install" "" "PS100" [] demoPartEasy
    (by rfl) (by rfl) (by rfl)
  exact ⟨h.1, by rw [h.2.1 (by decide)]; rfl⟩

/-- C10: with both identifiers supplied as explicit non-empty arguments,
the compatibility handler performs no extraction and no completion-service
call: its result (verdict and response text included) is identical across
arbitrary user queries, histories and service oracles. -/
theorem c10_explicit_args_determinism :
    ∀ (llm llm₂ : String → String → Option String) (catalog : List PartRecord)
      (q q₂ pn mn : String) (h h₂ : List Turn),
      pn ≠ "" → mn ≠ "" →
      CompatibilityAgent.handle_query llm catalog q pn mn h
        = CompatibilityAgent.handle_query llm₂ catalog q₂ pn mn h₂ := by
  intro llm llm₂ catalog q q₂ pn mn h h₂ hpn hmn
  have hcond : ¬(pn = "" ∨ mn = "") := by
    rintro (hc | hc)
    · exact hpn hc
    · exact hmn hc
  have hres : ∀ (l : String → String → Option String) (qq : String) (hh : List Turn),
      CompatibilityAgent.resolveEntities l qq pn mn hh = some (pn, mn) := by
    intro l qq hh
    unfold CompatibilityAgent.resolveEntities
    rw [if_neg hcond]
    simp [hcond]
  unfold CompatibilityAgent.handle_query
  rw [hres llm q h, hres llm₂ q₂ h₂]
  rfl

/-- C10 witness: two runs with different queries, histories and oracles but
the same explicit identifiers agree on the demo catalog. -/
theorem c10_explicit_args_determinism_witness :
    CompatibilityAgent.handle_query (fun _ _ => none) demoCatalog
        "is it ok?" "PS100" "MODEL_A" c2History
      = CompatibilityAgent.handle_query (fun _ _ => some "PART_NUMBER: PS999")
        demoCatalog "something else entirely" "PS100" "MODEL_A" [] :=
  c10_explicit_args_determinism (fun _ _ => none) (fun _ _ => some "PART_NUMBER: PS999")
    demoCatalog "is it ok?" "something else entirely" "PS100" "MODEL_A" c2History []
    (by decide) (by decide)

/-- In reference mode, `search_parts` computes exactly the alternatives
list, for every query text and category filter. -/
theorem search_parts_reference_mode :
    ∀ (vsearch : String → Nat → String → List String) (catalog : List PartRecord)
      (q cat ref : String) (rp : PartRecord), ref ≠ "" →
      findPart catalog ref = some rp →
      ProductSearchAgent.search_parts vsearch catalog q cat ref
        = similarAlternatives vsearch catalog ref rp := by
  intro vsearch catalog q cat ref rp href hfind
  unfold ProductSearchAgent.search_parts
  rw [if_pos href, hfind]
  rfl

/-- C8 counterexample: the claim says the similar-parts handler of the
returned result contains the up-to-5 alternatives; on a catalog with five
alternatives to PS300 the handler of the result holds only 3 of the 5 parts
that the search produced. -/
theorem c8_counterexample_handler_returns_three :
    (ProductSearchAgent.handle_query c8Llm c8Vsearch c8Catalog
        "show me similar parts" "" c8History).map (fun r => r.parts)
      ≠ some (ProductSearchAgent.search_parts c8Vsearch c8Catalog
          "show me similar parts" "" "PS300")
    ∧ (ProductSearchAgent.search_parts c8Vsearch c8Catalog
        "show me similar parts" "" "PS300").length = 5 := by
  constructor
  · decide
  · rfl

/-- C8 (amended): for a similar/alternative query with a reference part
recovered from history and present in the catalog, the handler searches
with the reference part of the own name, category and subcategory, the
computed alternatives exclude the reference and number at most 5, and the
handler of the returned result contains the first 3 of them. -/
theorem c8_similar_query_alternatives :
    ∀ (llm : String → String → Option String)
      (vsearch : String → Nat → String → List String) (catalog : List PartRecord)
      (q : String) (h : List Turn) (ref : String) (rp : PartRecord),
      ProductSearchAgent.is_meta_query q = false →
      containsKeyword q ProductSearchAgent.similarKeywords = true →
      (ProductSearchAgent.extract_context_from_history q h).part_number = ref →
      ref ≠ "" →
      findPart catalog ref = some rp →
      (∀ sys u, (llm sys u).isSome = true) →
      ∃ r, ProductSearchAgent.handle_query llm vsearch catalog q "" h = some r
        ∧ r.parts = (similarAlternatives vsearch catalog ref rp).take 3
        ∧ (∀ p ∈ similarAlternatives vsearch catalog ref rp, p.part_number ≠ ref)
        ∧ (similarAlternatives vsearch catalog ref rp).length ≤ 5 := by
  intro llm vsearch catalog q h ref rp hmeta hsim hctx href hfind hllm
  have hmem : ∀ p ∈ similarAlternatives vsearch catalog ref rp, p.part_number ≠ ref := by
    intro p hp
    have hp5 := List.mem_of_mem_take hp
    obtain ⟨a, ha, hfa⟩ := List.mem_filterMap.mp hp5
    have ha' : a ≠ ref := by
      have := (List.mem_filter.mp ha).2
      simpa using this
    have hpa : p.part_number = a := by
      have := List.find?_some hfa
      simpa using this
    rw [hpa]
    exact ha'
  have hlen : (similarAlternatives vsearch catalog ref rp).length ≤ 5 := by
    unfold similarAlternatives
    simp [List.length_take]
  unfold ProductSearchAgent.handle_query
  rw [hmeta]
  simp only [Bool.false_eq_true, if_false]
  rw [hctx]
  have hcond : (containsKeyword q ProductSearchAgent.similarKeywords = true) ∧ ref ≠ "" :=
    ⟨hsim, href⟩
  rw [if_pos hcond]
  rw [search_parts_reference_mode vsearch catalog q _ ref rp href hfind]
  unfold ProductSearchAgent.ps_generate_response
  by_cases hnil : similarAlternatives vsearch catalog ref rp = []
  · rw [if_pos hnil]
    exact ⟨_, rfl, by rw [hnil], hmem, hlen⟩
  · rw [if_neg hnil]
    obtain ⟨resp, hresp⟩ := Option.isSome_iff_exists.mp (hllm _ q)
    rw [hresp]
    exact ⟨_, rfl, rfl, hmem, hlen⟩

/-- C8 witness: on the concrete PS300 scenario the handler returns the
first three of the five alternatives, all distinct from PS300. -/
theorem c8_similar_query_alternatives_witness :
    ∃ r, ProductSearchAgent.handle_query c8Llm c8Vsearch c8Catalog
        "show me similar parts" "" c8History = some r
      ∧ r.parts = (similarAlternatives c8Vsearch c8Catalog "PS300" c8Ref).take 3
      ∧ (∀ p ∈ similarAlternatives c8Vsearch c8Catalog "PS300" c8Ref,
          p.part_number ≠ "PS300")
      ∧ (similarAlternatives c8Vsearch c8Catalog "PS300" c8Ref).length ≤ 5 :=
  c8_similar_query_alternatives c8Llm c8Vsearch c8Catalog "show me similar parts"
    c8History "PS300" c8Ref (by rfl) (by rfl) (by rfl) (by decide) (by rfl)
    (fun _ _ => rfl)

end PartSelectSpec
